import Mathlib

/-!
Verification development for the media-protection controller
(`src/app/js/streaming/protection/ProtectionController.js`).

The controller is shallowly embedded: JavaScript closure variables become
fields of an explicit state record, asynchronous gateway callbacks become
guarded transition operations, and observable calls (gateway requests,
public event dispatches, fault notifications, XHR operations) are
recorded as effect lists.  Byte buffers are `List Nat`; nullable values
are `Option`; JavaScript truthiness is made explicit where the source
relies on it.
-/

namespace ProtectionController

/-- JavaScript truthiness of a nullable string: `null`/`undefined` and the
empty string are falsy, every other string is truthy. -/
def jsTruthyStr : Option String → Bool
  | none => false
  | some s => s != ""

/-! ## License HTTP exchange (`onKeyMessage` XHR handlers, lines 333–369) -/

/-- Completion context of one license XHR: the HTTP status, the ready
state, the (nullable) response body, whether `teardown` marked the request
as deliberately aborted, and whether the `onload` handler fired (i.e. the
transfer itself succeeded, as opposed to a transport error or abort). -/
structure XhrDone where
  status : Nat
  readyState : Nat
  response : Option (List Nat)
  aborted : Bool
  loadFired : Bool
deriving DecidableEq

/-- Payload of the `MEDIA_KEYMESSERR_LICENSER_ERROR` fault raised by the
`onerror`/`onloadend` handler: the resolved license URL, the HTTP status,
and the parsed error body (empty string when there is no response). -/
structure LicenseFault where
  url : String
  status : Nat
  errorBody : String
deriving DecidableEq

/-- The `onload` handler of the license XHR (source lines 333–350), as a
function of the completion context and the current `needFailureReport`
flag, returning the updated flag together with the key material passed to
`updateKeySession` (if any).  `parse` stands for
`licenseServerData.getLicenseMessage` applied to the nullable response. -/
def onload (parse : Option (List Nat) → Option (List Nat)) (x : XhrDone)
    (needFailureReport : Bool) : Bool × Option (List Nat) :=
  if x.status < 200 ∨ x.status > 299 then (needFailureReport, none)
  else if x.status = 200 ∧ x.readyState = 4 then
    match parse x.response with
    | some m => (false, some m)
    | none => (true, none)
  else (needFailureReport, none)

/-- The `onerror`/`onloadend` handler of the license XHR (source lines
352–369): it raises the license-server fault unless the failure report was
already cleared or the request was deliberately aborted by `teardown`.
`getErr` stands for `licenseServerData.getErrorResponse`. -/
def onloadend (getErr : List Nat → String) (url : String) (x : XhrDone)
    (needFailureReport : Bool) : Option LicenseFault :=
  if !needFailureReport then none
  else if x.aborted then none
  else some { url := url, status := x.status,
              errorBody := match x.response with
                           | some r => getErr r
                           | none => "" }

/-- Observable outcome of one complete license exchange: the key material
applied to the session on success (first component) and the fault raised
on failure (second component).  `needFailureReport` starts out `true`;
`onload` runs only when the load event fired; `onloadend` always runs
last. -/
def exchangeOutcome (parse : Option (List Nat) → Option (List Nat))
    (getErr : List Nat → String) (url : String) (x : XhrDone) :
    Option (List Nat) × Option LicenseFault :=
  let r := if x.loadFired then onload parse x true else (true, none)
  (r.2, onloadend getErr url x r.1)

/-- The success condition the handler actually implements: load event
fired, HTTP status exactly 200, ready state 4, and a non-null parse. -/
def licenseSuccess (parse : Option (List Nat) → Option (List Nat))
    (x : XhrDone) : Bool :=
  x.loadFired && decide (x.status = 200) && decide (x.readyState = 4) &&
    (parse x.response).isSome

/-- Success as the specification words it: response status in [200,299]
and the exchange fully completed (load event fired, ready state 4). -/
def specLicenseSuccess (x : XhrDone) : Prop :=
  200 ≤ x.status ∧ x.status ≤ 299 ∧ x.loadFired = true ∧ x.readyState = 4

/-- A completed exchange answering 204 with a parseable body. -/
def xhr204 : XhrDone :=
  { status := 204, readyState := 4, response := some [1],
    aborted := false, loadFired := true }

/-- C1 counterexample: at `xhr204` the specification's success condition
holds (status 204 lies in [200,299] and the exchange fully completed) and
the response parses to non-null key material, yet the code applies no key
material to the session and raises the `LicenseServerError` fault — the
code treats only status 200 as success. -/
theorem c1_counterexample :
    specLicenseSuccess xhr204 ∧
    ((fun r => r) xhr204.response).isSome = true ∧
    (exchangeOutcome (fun r => r) (fun _ => "err") "http://ls" xhr204).1 = none ∧
    (exchangeOutcome (fun r => r) (fun _ => "err") "http://ls" xhr204).2 =
      some { url := "http://ls", status := 204, errorBody := "err" } := by
  refine ⟨?_, rfl, rfl, rfl⟩
  unfold specLicenseSuccess xhr204
  refine ⟨by norm_num, by norm_num, rfl, rfl⟩

/-- C1 (amended): for every completed license exchange the outcome is
fully characterised by: success exactly when the load event fired with
status 200, ready state 4 and a non-null parse of the response body, in
which case the parsed key material is applied and no fault is raised; in
every other case no material is applied and, unless the request was
deliberately aborted, the `LicenseServerError` fault is raised carrying
the url, the status, and the parsed error body when a response exists. -/
theorem c1_license_exchange (parse : Option (List Nat) → Option (List Nat))
    (getErr : List Nat → String) (url : String) (x : XhrDone) :
    exchangeOutcome parse getErr url x =
      ((if licenseSuccess parse x then parse x.response else none),
       (if licenseSuccess parse x || x.aborted then none
        else some { url := url, status := x.status,
                    errorBody := match x.response with
                                 | some r => getErr r
                                 | none => "" })) := by
  obtain ⟨st, rs, resp, ab, lf⟩ := x
  unfold exchangeOutcome onload onloadend licenseSuccess
  cases lf
  · simp only [Bool.false_and]
    cases ab <;> simp
  · simp only [Bool.true_and]
    by_cases h1 : st < 200 ∨ st > 299
    · have hne : ¬ st = 200 := by omega
      have hd : decide (st = 200) = false := by simp [hne]
      simp only [if_pos h1, hd, Bool.false_and]
      cases ab <;> simp
    · by_cases h2 : st = 200 ∧ rs = 4
      · obtain ⟨rfl, rfl⟩ := h2
        have hd : decide ((200 : Nat) = 200) = true := by decide
        have hd4 : decide ((4 : Nat) = 4) = true := by decide
        simp only [if_neg h1, if_pos (And.intro rfl rfl), hd, hd4,
          Bool.true_and]
        cases hp : parse resp
        · simp only [Option.isSome_none, Bool.and_false]
          cases ab <;> simp
        · simp only [Option.isSome_some, Bool.and_true]
          cases ab <;> simp
      · have hb : (decide (st = 200) && decide (rs = 4)) = false := by
          rcases Decidable.em (st = 200) with h | h
          · rcases Decidable.em (rs = 4) with h4 | h4
            · exact absurd ⟨h, h4⟩ h2
            · simp [h4]
          · simp [h]
        simp only [if_neg h1, if_neg h2]
        rw [show (decide (st = 200) && decide (rs = 4) &&
              (parse resp).isSome) = false by
            rw [Bool.and_assoc] at *
            cases hq : decide (st = 200) <;> simp_all]
        cases ab <;> simp

/-- `teardown` acting on the tracked license request (source lines
606–611): when a request is tracked, it is flagged `aborted` and aborted,
which fires the `onerror`/`onloadend` handler on the flagged request with
whatever `needFailureReport` value the exchange had accumulated. -/
def teardownLicenseRequest (getErr : List Nat → String) (url : String)
    (tracked : Option (XhrDone × Bool)) : Option LicenseFault :=
  match tracked with
  | none => none
  | some (x, needFailureReport) =>
      onloadend getErr url { x with aborted := true } needFailureReport

/-- C7: aborting the tracked license exchange from `teardown` never raises
the `LicenseServerError` fault, whatever state the exchange was in: the
`aborted` flag set by `teardown` makes the completion handler suppress the
failure report. -/
theorem c7_teardown_raises_no_fault (getErr : List Nat → String)
    (url : String) (x : XhrDone) (nfr : Bool) :
    teardownLicenseRequest getErr url (some (x, nfr)) = none := by
  unfold teardownLicenseRequest onloadend
  cases nfr <;> simp

/-! ## License acquisition pipeline (`onKeyMessage`, lines 245–400) -/

/-- The `serverURL` field of per-system protection data: either a plain
string or an object mapping message types to URLs. -/
inductive ServerURL where
  | str (s : String)
  | map (m : List (String × String))
deriving DecidableEq

/-- Per-system protection data supplied by the host application (the
fields of `protDataSet` entries read by `onKeyMessage`). -/
structure ProtData where
  serverURL : Option ServerURL := none
  laURL : Option String := none
  httpRequestHeaders : List (String × String) := []
  withCredentials : Bool := false

/-- JavaScript truthiness of the `serverURL` field: absent is falsy, an
empty string is falsy, any object (mapping) is truthy. -/
def serverURLTruthy : Option ServerURL → Bool
  | none => false
  | some (.str s) => s != ""
  | some (.map _) => true

/-- License-server URL determination (source lines 298–318): if the
configured `serverURL` is truthy, a non-empty string is used directly and
a mapping is consulted at the message type; otherwise a non-empty legacy
`laURL` is used; when all that leaves the URL `null`, the URL extracted
from the initialization-data metadata is used if truthy, else the
host-suggested default URL. -/
def resolveLicenseURL (pd : Option ProtData) (mt : String)
    (initDataURL defaultURL : Option String) : Option String :=
  let url : Option String :=
    match pd with
    | none => none
    | some p =>
      if serverURLTruthy p.serverURL then
        match p.serverURL with
        | some (.str s) => if s != "" then some s else none
        | some (.map m) =>
            match m.lookup mt with
            | some v => some v
            | none => none
        | none => none
      else if jsTruthyStr p.laURL then p.laURL
      else none
  match url with
  | some u => some u
  | none => if jsTruthyStr initDataURL then initDataURL else defaultURL

/-- The first truthy URL of a candidate list (helper for stating the
claim's reading of the precedence order). -/
def firstTruthy : List (Option String) → Option String
  | [] => none
  | o :: rest => if jsTruthyStr o then o else firstTruthy rest

/-- URL resolution as claim C5 words it: the four stages are tried in
order and the first stage that yields a URL wins — in particular a
configured `serverURL` mapping that lacks the message type falls back to
the deprecated `laURL` field. -/
def claimResolveURL (pd : Option ProtData) (mt : String)
    (initDataURL defaultURL : Option String) : Option String :=
  let s1 : Option String :=
    match pd with
    | none => none
    | some p =>
      match p.serverURL with
      | none => none
      | some (.str s) => if s != "" then some s else none
      | some (.map m) => m.lookup mt
  let s2 : Option String :=
    match pd with
    | none => none
    | some p => if jsTruthyStr p.laURL then p.laURL else none
  firstTruthy [s1, s2, initDataURL, defaultURL]

/-- Amended resolution order: a truthy configured `serverURL` is consulted
exclusively (a non-empty string directly, a mapping at the message type,
with no fallback to the legacy field when the mapping lacks that key); the
legacy `laURL` is consulted only when no truthy `serverURL` is configured;
only when neither yields a URL are the metadata URL and then the host
default URL used. -/
def amendedResolveURL (pd : Option ProtData) (mt : String)
    (initDataURL defaultURL : Option String) : Option String :=
  let configured : Option String :=
    match pd with
    | none => none
    | some p =>
      if serverURLTruthy p.serverURL then
        match p.serverURL with
        | some (.str s) => some s
        | some (.map m) => m.lookup mt
        | none => none
      else if jsTruthyStr p.laURL then p.laURL
      else none
  match configured with
  | some u => some u
  | none => if jsTruthyStr initDataURL then initDataURL else defaultURL

/-- The license-service descriptor returned by
`protectionExt.getLicenseServer`, specialised to the message type of the
current key message: HTTP method, expected response type, and the
URL post-processing hook `getServerURLFromMessage` (with the raw message
and message type already applied). -/
structure LSD where
  method : String
  responseType : String
  override : Option String → Option String

/-- Inputs of one `onKeyMessage` invocation.  External collaborator
results (`getLicenseServer`, `isClearKey`, `processClearKeyLicenseRequest`,
`getLicenseServerURLFromInitData`, `getRequestHeadersFromMessage`,
`getLicenseRequestFromMessage`) are supplied as data, exactly as the
handler observes them. -/
structure KMInput where
  message : Option (List Nat)
  messageType : Option String
  protData : Option ProtData
  lsd : Option LSD
  isClearKey : Bool
  clearkeys : Bool
  initDataURL : Option String
  defaultURL : Option String
  ksHeaders : List (String × String)
  licenseRequest : Option (List Nat)

/-- `messageType = keyMessage.messageType ? keyMessage.messageType :
"license-request"` (line 252), with JavaScript truthiness. -/
def mtOf (i : KMInput) : String :=
  match i.messageType with
  | some s => if s != "" then s else "license-request"
  | none => "license-request"

/-- `!message || message.byteLength === 0` (line 273). -/
def emptyMessage (i : KMInput) : Bool :=
  match i.message with
  | none => true
  | some l => l.isEmpty

/-- Observable actions of one `onKeyMessage` invocation, in program
order. -/
inductive KMEffect where
  | keyMessageEvent
  | fault (code msg : String)
  | updateSession
  | xhrNew
  | xhrOpen (method : String) (url : Option String)
  | setResponseType (rt : String)
  | setHeader (k v : String)
  | withCredentials
  | xhrSend (body : Option (List Nat))
deriving DecidableEq

/-- The header-setting loop (source lines 372–382): each header is set,
and an `authorization` header (case-insensitive) additionally forces
credentialed transport first. -/
def updateHeadersEffects (hs : List (String × String)) : List KMEffect :=
  (hs.map (fun h =>
    (if h.1.toLower = "authorization" then [KMEffect.withCredentials] else [])
      ++ [KMEffect.setHeader h.1 h.2])).flatten

/-- The `onKeyMessage` handler (source lines 245–400) as the list of its
observable actions: re-emit the key message, stop with the `NoChallenge`
fault on an empty message, stop silently when no license server is
involved, let the application handle clear-key requests, create the XHR,
resolve the URL (descriptor post-processing last) and stop with the
`NoLicenseURL` fault when it is falsy, open the request, set response
type, headers and credentials, and send — note that a null license
request raises the `NoChallenge` fault but the send is still issued. -/
def onKeyMessage (i : KMInput) : List KMEffect :=
  KMEffect.keyMessageEvent ::
    (if emptyMessage i then
      [KMEffect.fault "MEDIA_KEYMESSERR_NO_CHALLENGE"
        "Empty key message from CDM"]
    else
      match i.lsd with
      | none => []
      | some lsd =>
        if i.isClearKey && i.clearkeys then [KMEffect.updateSession]
        else
          KMEffect.xhrNew ::
            (let url := lsd.override
              (resolveLicenseURL i.protData (mtOf i) i.initDataURL i.defaultURL)
             if jsTruthyStr url then
               KMEffect.xhrOpen lsd.method url ::
               KMEffect.setResponseType lsd.responseType ::
                 ((match i.protData with
                   | some p => updateHeadersEffects p.httpRequestHeaders
                   | none => []) ++
                  updateHeadersEffects i.ksHeaders ++
                  (match i.protData with
                   | some p =>
                       if p.withCredentials then [KMEffect.withCredentials]
                       else []
                   | none => []) ++
                  (if i.licenseRequest.isNone then
                    [KMEffect.fault "MEDIA_KEYMESSERR_NO_CHALLENGE"
                      "No license challenge from CDM key message"]
                  else []) ++
                  [KMEffect.xhrSend i.licenseRequest])
             else
               [KMEffect.fault "MEDIA_KEYMESSERR_URL_LICENSER_UNKNOWN"
                 "No license server URL specified"]))

/-- Number of `xhrOpen` actions in a trace. -/
def countOpens (l : List KMEffect) : Nat :=
  l.countP (fun e => match e with | .xhrOpen _ _ => true | _ => false)

/-- Number of `xhrSend` actions in a trace. -/
def countSends (l : List KMEffect) : Nat :=
  l.countP (fun e => match e with | .xhrSend _ => true | _ => false)

/-- Number of XHR-creation actions in a trace. -/
def countNews (l : List KMEffect) : Nat :=
  l.countP (fun e => match e with | .xhrNew => true | _ => false)

/-- C6: a key message whose bytes are missing or of zero length yields
exactly the key-message re-emission followed by the `NoChallenge` fault —
in particular no XHR is ever created, opened or sent for it. -/
theorem c6_empty_message (i : KMInput) (h : emptyMessage i = true) :
    onKeyMessage i =
      [KMEffect.keyMessageEvent,
       KMEffect.fault "MEDIA_KEYMESSERR_NO_CHALLENGE"
         "Empty key message from CDM"] ∧
    countNews (onKeyMessage i) = 0 ∧
    countOpens (onKeyMessage i) = 0 ∧
    countSends (onKeyMessage i) = 0 := by
  have he : onKeyMessage i =
      [KMEffect.keyMessageEvent,
       KMEffect.fault "MEDIA_KEYMESSERR_NO_CHALLENGE"
         "Empty key message from CDM"] := by
    unfold onKeyMessage
    rw [h]
    rfl
  refine ⟨he, ?_, ?_, ?_⟩ <;> rw [he] <;> rfl

/-- A key-message input with a zero-length message. -/
def kmEmpty : KMInput :=
  { message := some [], messageType := none, protData := none, lsd := none,
    isClearKey := false, clearkeys := false, initDataURL := none,
    defaultURL := none, ksHeaders := [], licenseRequest := none }

/-- C6 witness: the empty-message input `kmEmpty` satisfies the hypothesis
and the conclusion of `c6_empty_message`. -/
theorem c6_witness :
    emptyMessage kmEmpty = true ∧
    (onKeyMessage kmEmpty =
      [KMEffect.keyMessageEvent,
       KMEffect.fault "MEDIA_KEYMESSERR_NO_CHALLENGE"
         "Empty key message from CDM"] ∧
     countNews (onKeyMessage kmEmpty) = 0 ∧
     countOpens (onKeyMessage kmEmpty) = 0 ∧
     countSends (onKeyMessage kmEmpty) = 0) :=
  ⟨rfl, c6_empty_message kmEmpty rfl⟩

/-- A key message whose system-specific transform of the raw message
yields nothing: non-empty message, a license server involved, a resolvable
URL, but `getLicenseRequestFromMessage` returns null. -/
def kmNullChallenge : KMInput :=
  { message := some [1], messageType := none, protData := none,
    lsd := some { method := "POST", responseType := "arraybuffer",
                  override := fun u => u },
    isClearKey := false, clearkeys := false,
    initDataURL := some "http://ls.example/a", defaultURL := none,
    ksHeaders := [], licenseRequest := none }

/-- C2 (code bug): when the transform of the raw message yields nothing,
the `NoChallenge` fault is raised but the send is still issued — the
handler lacks a `return` after the fault, so `xhrLicense.send(null)`
executes, contradicting the specified abort-without-sending. -/
theorem c2_fault_but_still_sends :
    onKeyMessage kmNullChallenge =
      [KMEffect.keyMessageEvent, KMEffect.xhrNew,
       KMEffect.xhrOpen "POST" (some "http://ls.example/a"),
       KMEffect.setResponseType "arraybuffer",
       KMEffect.fault "MEDIA_KEYMESSERR_NO_CHALLENGE"
         "No license challenge from CDM key message",
       KMEffect.xhrSend none] ∧
    countSends (onKeyMessage kmNullChallenge) = 1 := by
  constructor <;> rfl

/-- C5 counterexample configuration: a configured `serverURL` mapping that
lacks the message type, together with a non-empty legacy `laURL`. -/
def pdMapNoKey : ProtData :=
  { serverURL := some (.map []), laURL := some "http://legacy.example" }

/-- C5 counterexample: with `pdMapNoKey`, the claimed precedence order
resolves to the legacy `laURL`, but the code skips the legacy field
whenever a truthy `serverURL` is configured — even one that yields no URL
for the message type — and resolves to the metadata-embedded URL
instead. -/
theorem c5_counterexample :
    resolveLicenseURL (some pdMapNoKey) "license-request"
        (some "http://meta.example") (some "http://default.example") =
      some "http://meta.example" ∧
    claimResolveURL (some pdMapNoKey) "license-request"
        (some "http://meta.example") (some "http://default.example") =
      some "http://legacy.example" ∧
    resolveLicenseURL (some pdMapNoKey) "license-request"
        (some "http://meta.example") (some "http://default.example") ≠
      claimResolveURL (some pdMapNoKey) "license-request"
        (some "http://meta.example") (some "http://default.example") := by
  refine ⟨rfl, rfl, ?_⟩
  decide

/-- The code's URL cascade coincides with the amended wording. -/
theorem resolveLicenseURL_eq_amended (pd : Option ProtData) (mt : String)
    (idu du : Option String) :
    resolveLicenseURL pd mt idu du = amendedResolveURL pd mt idu du := by
  cases pd with
  | none => rfl
  | some p =>
    obtain ⟨su, la, hh, wc⟩ := p
    cases su with
    | none => rfl
    | some v =>
      cases v with
      | str s =>
        by_cases hs : s = ""
        · subst hs; rfl
        · simp [resolveLicenseURL, amendedResolveURL, serverURLTruthy, hs]
      | map m =>
        simp only [resolveLicenseURL, amendedResolveURL, serverURLTruthy]
        cases List.lookup mt m <;> rfl

/-- C5 (amended): for every key message reaching the URL-resolution step
(non-empty message, license server involved, not handled as a clear-key
request), the URL is resolved by the amended cascade — a truthy configured
`serverURL` consulted exclusively, the legacy field only when no
`serverURL` is configured, then metadata URL, then host default — with the
descriptor's post-processing applied last; a truthy final URL is the one
the request is opened with, and a falsy final URL raises the
`NoLicenseURL` fault with no request opened and nothing sent. -/
theorem c5_url_resolution (i : KMInput) (lsd : LSD)
    (hm : emptyMessage i = false) (hl : i.lsd = some lsd)
    (hck : (i.isClearKey && i.clearkeys) = false) :
    resolveLicenseURL i.protData (mtOf i) i.initDataURL i.defaultURL =
      amendedResolveURL i.protData (mtOf i) i.initDataURL i.defaultURL ∧
    (jsTruthyStr (lsd.override (resolveLicenseURL i.protData (mtOf i)
        i.initDataURL i.defaultURL)) = true →
      KMEffect.xhrOpen lsd.method (lsd.override (resolveLicenseURL
        i.protData (mtOf i) i.initDataURL i.defaultURL)) ∈ onKeyMessage i) ∧
    (jsTruthyStr (lsd.override (resolveLicenseURL i.protData (mtOf i)
        i.initDataURL i.defaultURL)) = false →
      KMEffect.fault "MEDIA_KEYMESSERR_URL_LICENSER_UNKNOWN"
          "No license server URL specified" ∈ onKeyMessage i ∧
        countOpens (onKeyMessage i) = 0 ∧
        countSends (onKeyMessage i) = 0) := by
  refine ⟨resolveLicenseURL_eq_amended _ _ _ _, ?_, ?_⟩
  · intro ht
    unfold onKeyMessage
    rw [hm, hl]
    simp only [Bool.false_eq_true, if_false, hck, ht, if_true]
    simp
  · intro hf
    have htr : onKeyMessage i =
        [KMEffect.keyMessageEvent, KMEffect.xhrNew,
         KMEffect.fault "MEDIA_KEYMESSERR_URL_LICENSER_UNKNOWN"
           "No license server URL specified"] := by
      unfold onKeyMessage
      rw [hm, hl]
      simp only [Bool.false_eq_true, if_false, hck, hf]
    rw [htr]
    refine ⟨by simp, rfl, rfl⟩

/-- C5 witness input: non-empty message, identity URL post-processing,
`pdMapNoKey` protection data and a metadata URL. -/
def kmC5 : KMInput :=
  { message := some [1], messageType := none,
    protData := some pdMapNoKey,
    lsd := some { method := "POST", responseType := "json",
                  override := fun u => u },
    isClearKey := false, clearkeys := false,
    initDataURL := some "http://meta.example", defaultURL := none,
    ksHeaders := [], licenseRequest := some [2] }

/-- The license-service descriptor of `kmC5`. -/
def lsdC5 : LSD :=
  { method := "POST", responseType := "json", override := fun u => u }

/-- C5 witness: `kmC5` satisfies the hypotheses of `c5_url_resolution`,
and its conclusion holds there. -/
theorem c5_witness :
    emptyMessage kmC5 = false ∧ kmC5.lsd = some lsdC5 ∧
    (kmC5.isClearKey && kmC5.clearkeys) = false ∧
    (resolveLicenseURL kmC5.protData (mtOf kmC5) kmC5.initDataURL
        kmC5.defaultURL =
      amendedResolveURL kmC5.protData (mtOf kmC5) kmC5.initDataURL
        kmC5.defaultURL ∧
    (jsTruthyStr (lsdC5.override (resolveLicenseURL kmC5.protData (mtOf kmC5)
        kmC5.initDataURL kmC5.defaultURL)) = true →
      KMEffect.xhrOpen lsdC5.method (lsdC5.override (resolveLicenseURL
        kmC5.protData (mtOf kmC5) kmC5.initDataURL kmC5.defaultURL)) ∈
        onKeyMessage kmC5) ∧
    (jsTruthyStr (lsdC5.override (resolveLicenseURL kmC5.protData (mtOf kmC5)
        kmC5.initDataURL kmC5.defaultURL)) = false →
      KMEffect.fault "MEDIA_KEYMESSERR_URL_LICENSER_UNKNOWN"
          "No license server URL specified" ∈ onKeyMessage kmC5 ∧
        countOpens (onKeyMessage kmC5) = 0 ∧
        countSends (onKeyMessage kmC5) = 0)) :=
  ⟨rfl, rfl, rfl, c5_url_resolution kmC5 lsdC5 rfl rfl rfl⟩

/-! ## Key-system selection state machine and session lifecycle -/

/-- One candidate key system produced by the extension resolver: the
protection-system identity, its associated initialization data and
optional CDM custom data. -/
structure Candidate where
  ks : Nat
  initData : List Nat
  cdmData : Option (List Nat)
deriving DecidableEq

/-- One queued batch of candidates (`supportedKS`). -/
abbrev Batch := List Candidate

/-- The tri-valued `this.keySystem` field: `undefined` (never selected),
`null` (selection in progress), or a selected key system. -/
inductive KSField where
  | undef
  | selecting
  | sys (k : Nat)
deriving DecidableEq

/-- Controller state: the closure variables of the source module together
with the instance fields read by the embedded operations.  The lower-case
`keysystem` is the field read (but never written) by `setSessionType`;
`sessionsInitData` is the gateway's registry of initialization payloads of
open sessions (see `createKeySession`); `ksSessionType` stands for the
mutable `sessionType` field of the selected key-system object that
`setSessionType`'s unreachable branch would write. -/
structure CtrlState where
  keySystem : KSField := .undef
  keysystem : Option Nat := none
  pendingNeedKeyData : List Batch := []
  audioCodec : Option String := none
  videoCodec : Option String := none
  protDataSet : Option Nat := none
  initialized : Bool := false
  sessionsInitData : List (List Nat) := []
  ksSessionType : Option String := none
deriving DecidableEq

/-- External collaborator behaviour: `CommonEncryption.getPSSHForKeySystem`
(deriving system-specific initialization data) and whether the gateway's
synchronous `createKeySession` throws. -/
structure Env where
  psshForKS : KSField → List Nat → Option (List Nat)
  createThrows : List Nat → Bool

/-- Observable actions of the selection machine and session lifecycle. -/
inductive CEffect where
  | requestAccess (numCandidates : Nat)
  | gatewaySelect
  | publicSelected (ok : Bool)
  | faultAccessDenied
  | createSession (initData : List Nat) (cdmData : Option (List Nat))
  | notifySessionCreatedError (raised : Bool)
deriving DecidableEq

/-- `createKeySession` (source lines 642–675): derive the
protection-system-specific initialization data; treat a byte-equal
duplicate among the open sessions' payloads as a no-op; otherwise request
session creation from the gateway, converting a synchronous exception into
a fault notification; no derived data notifies a creation failure.

Modelled from the spec: the Platform Protection Gateway
(`protectionModel`, whose source is not under `src/`) tracks the
initialization payloads associated with open sessions — `getAllInitData`
returns them and a successful `createKeySession` associates the derived
payload with the new session — and `protectionExt.initDataEquals` is byte
equality.  These collaborators are embedded as the `sessionsInitData`
registry. -/
def createKeySession (env : Env) (s : CtrlState) (initData : List Nat)
    (cdmData : Option (List Nat)) : CtrlState × List CEffect :=
  match env.psshForKS s.keySystem initData with
  | some d =>
      if d ∈ s.sessionsInitData then (s, [])
      else if env.createThrows d then
        (s, [CEffect.notifySessionCreatedError true])
      else
        ({ s with sessionsInitData := d :: s.sessionsInitData },
         [CEffect.createSession d cdmData])
  | none => (s, [CEffect.notifySessionCreatedError false])

/-- Inner replay loop of the key-system-selected handler (source lines
208–213): scan one queued batch and create the key session of the first
candidate whose system matches the selected one, then break. -/
def replayBatch (env : Env) (k : Nat) (s : CtrlState) :
    List Candidate → CtrlState × List CEffect
  | [] => (s, [])
  | c :: cs =>
      if c.ks = k then createKeySession env s c.initData c.cdmData
      else replayBatch env k s cs

/-- Outer replay loop of the key-system-selected handler (source lines
207–214): every queued batch in order, threading the session registry. -/
def replayPending (env : Env) (k : Nat) (s : CtrlState) :
    List Batch → CtrlState × List CEffect
  | [] => (s, [])
  | b :: rest =>
      let r1 := replayBatch env k s b
      let r2 := replayPending env k r1.1 rest
      (r2.1, r1.2 ++ r2.2)

/-- `selectKeySystem` (source lines 104–236).  With a system already
selected, the first candidate matching it triggers a re-confirmation
access request; first time through (`undef`) the triggering batch is
enqueued, the state moves to selection-in-progress and one negotiation
request listing all candidates is issued; while selection is in progress
the batch is only enqueued.  The `fromManifest` flag is captured by the
one-shot handlers, which the resolution operations of `step` carry. -/
def selectKeySystem (s : CtrlState) (supportedKS : Batch) :
    CtrlState × List CEffect :=
  match s.keySystem with
  | .sys k =>
      match supportedKS.find? (fun c => c.ks == k) with
      | some _ => (s, [CEffect.requestAccess 1])
      | none => (s, [])
  | .undef =>
      ({ s with keySystem := .selecting,
                pendingNeedKeyData := s.pendingNeedKeyData ++ [supportedKS] },
       [CEffect.requestAccess supportedKS.length])
  | .selecting =>
      ({ s with pendingNeedKeyData := s.pendingNeedKeyData ++ [supportedKS] },
       [])

/-- Controller entry points and asynchronous gateway callbacks.  External
resolver results are carried as operation data, exactly as the handlers
observe them; `accessComplete`/`selectedEvent` are the one-shot handlers
subscribed while selecting, `accessCompleteSelected` the one subscribed by
the already-selected branch (with its captured candidate). -/
inductive Op where
  | opInit (supportedKS : Option Batch) (aCodec vCodec : Option String)
  | needKey (initDataType : String) (supportedKS : Batch)
  | accessComplete (granted : Bool) (fromManifest : Bool)
  | selectedEvent (result : Option Nat) (fromManifest : Bool)
  | accessCompleteSelected (granted : Bool) (c : Candidate)
  | createKS (initData : List Nat) (cdmData : Option (List Nat))
  | setSessType (t : String)
  | setProtData (d : Nat)
  | teardownOp

/-- One controller transition: `init` (lines 538–560, guarded by the
`initialized` flag that is set once and never cleared), `onNeedKey`
(lines 402–430, ignoring non-cenc data and empty candidate lists), the
selection resolution handlers (lines 137–153 and 180–227), the public
`createKeySession`, `setSessionType` (lines 763–767, guarded by the
lower-case `keysystem`), `setProtectionData`, and `teardown` (lines
606–626, which resets `this.keySystem` and destroys the gateway's
sessions but does not touch the `initialized` closure variable). -/
def step (env : Env) (s : CtrlState) : Op → CtrlState × List CEffect
  | .opInit sks a v =>
      if s.initialized then (s, [])
      else
        let s1 := { s with audioCodec := a, videoCodec := v }
        let r :=
          match sks with
          | some l => if 0 < l.length then selectKeySystem s1 l else (s1, [])
          | none => (s1, [])
        ({ r.1 with initialized := true }, r.2)
  | .needKey idt sks =>
      if idt ≠ "cenc" then (s, [])
      else if sks.length = 0 then (s, [])
      else selectKeySystem s sks
  | .accessComplete granted fromManifest =>
      if s.keySystem = .selecting then
        if granted then (s, [CEffect.gatewaySelect])
        else
          ({ s with keySystem := .undef },
           (if fromManifest then [] else [CEffect.publicSelected false]) ++
             [CEffect.faultAccessDenied])
      else (s, [])
  | .selectedEvent result fromManifest =>
      if s.keySystem = .selecting then
        match result with
        | some k =>
            let s1 := { s with keySystem := .sys k }
            let r := replayPending env k s1 s1.pendingNeedKeyData
            (r.1, CEffect.publicSelected true :: r.2)
        | none =>
            ({ s with keySystem := .undef },
             (if fromManifest then [] else [CEffect.publicSelected false]) ++
               [CEffect.faultAccessDenied])
      else (s, [])
  | .accessCompleteSelected granted c =>
      match s.keySystem with
      | .sys k =>
          if c.ks = k then
            if granted then
              let r := createKeySession env s c.initData c.cdmData
              (r.1, CEffect.publicSelected true :: r.2)
            else (s, [CEffect.publicSelected false])
          else (s, [])
      | _ => (s, [])
  | .createKS i c => createKeySession env s i c
  | .setSessType t =>
      if s.keysystem.isSome then ({ s with ksSessionType := some t }, [])
      else (s, [])
  | .setProtData d => ({ s with protDataSet := some d }, [])
  | .teardownOp =>
      ({ s with keySystem := .undef, sessionsInitData := [] }, [])

/-- Fresh controller state: every closure variable at its initial value;
in particular the lower-case `keysystem` field is absent. -/
def initialState : CtrlState := {}

/-- State reached by a sequence of operations from a fresh controller. -/
def runState (env : Env) (ops : List Op) : CtrlState :=
  ops.foldl (fun s op => (step env s op).1) initialState

/-- `createKeySession` changes at most the gateway session registry. -/
theorem createKeySession_state (env : Env) (s : CtrlState) (i : List Nat)
    (c : Option (List Nat)) :
    ∃ l, (createKeySession env s i c).1 = { s with sessionsInitData := l } := by
  unfold createKeySession
  split
  · split
    · exact ⟨s.sessionsInitData, rfl⟩
    · split
      · exact ⟨s.sessionsInitData, rfl⟩
      · exact ⟨_, rfl⟩
  · exact ⟨s.sessionsInitData, rfl⟩

/-- The batch replay loop changes at most the session registry. -/
theorem replayBatch_state (env : Env) (k : Nat) :
    ∀ (b : List Candidate) (s : CtrlState),
      ∃ l, (replayBatch env k s b).1 = { s with sessionsInitData := l } := by
  intro b
  induction b with
  | nil => exact fun s => ⟨s.sessionsInitData, rfl⟩
  | cons c cs ih =>
      intro s
      unfold replayBatch
      by_cases h : c.ks = k
      · rw [if_pos h]; exact createKeySession_state env s c.initData c.cdmData
      · rw [if_neg h]; exact ih s

/-- The pending replay loop changes at most the session registry. -/
theorem replayPending_state (env : Env) (k : Nat) :
    ∀ (q : List Batch) (s : CtrlState),
      ∃ l, (replayPending env k s q).1 = { s with sessionsInitData := l } := by
  intro q
  induction q with
  | nil => exact fun s => ⟨s.sessionsInitData, rfl⟩
  | cons b rest ih =>
      intro s
      obtain ⟨l1, h1⟩ := replayBatch_state env k b s
      obtain ⟨l2, h2⟩ := ih (replayBatch env k s b).1
      refine ⟨l2, ?_⟩
      simp only [replayPending]
      rw [h2, h1]

/-- `selectKeySystem` changes at most the selection flag and the queue. -/
theorem selectKeySystem_state (s : CtrlState) (ks : Batch) :
    ∃ f q, (selectKeySystem s ks).1 =
      { s with keySystem := f, pendingNeedKeyData := q } := by
  unfold selectKeySystem
  split
  · split
    · exact ⟨s.keySystem, s.pendingNeedKeyData, rfl⟩
    · exact ⟨s.keySystem, s.pendingNeedKeyData, rfl⟩
  · exact ⟨_, _, rfl⟩
  · exact ⟨_, _, rfl⟩

/-- Frame property of every transition: the lower-case `keysystem` field
is never assigned, and the `initialized` flag is never cleared. -/
theorem step_frame (env : Env) (s : CtrlState) (op : Op) :
    ((step env s op).1).keysystem = s.keysystem ∧
    (s.initialized = true → ((step env s op).1).initialized = true) := by
  cases op with
  | opInit sks a v =>
      simp only [step]
      by_cases h : s.initialized = true
      · rw [if_pos h]; exact ⟨rfl, fun _ => h⟩
      · rw [if_neg h]
        refine ⟨?_, fun _ => rfl⟩
        cases sks with
        | none => rfl
        | some l =>
            by_cases hl : 0 < l.length
            · obtain ⟨f, q, hs⟩ :=
                selectKeySystem_state { s with audioCodec := a, videoCodec := v } l
              simp only [if_pos hl, hs]
            · simp only [if_neg hl]
  | needKey idt sks =>
      simp only [step]
      by_cases h : idt ≠ "cenc"
      · rw [if_pos h]; exact ⟨rfl, fun hi => hi⟩
      · rw [if_neg h]
        by_cases hl : sks.length = 0
        · rw [if_pos hl]; exact ⟨rfl, fun hi => hi⟩
        · rw [if_neg hl]
          obtain ⟨f, q, hs⟩ := selectKeySystem_state s sks
          rw [hs]
          exact ⟨rfl, fun hi => hi⟩
  | accessComplete granted fm =>
      simp only [step]
      by_cases h : s.keySystem = KSField.selecting
      · rw [if_pos h]
        cases granted with
        | true => exact ⟨rfl, fun hi => hi⟩
        | false => exact ⟨rfl, fun hi => hi⟩
      · rw [if_neg h]; exact ⟨rfl, fun hi => hi⟩
  | selectedEvent result fm =>
      simp only [step]
      by_cases h : s.keySystem = KSField.selecting
      · rw [if_pos h]
        cases result with
        | none => exact ⟨rfl, fun hi => hi⟩
        | some k =>
            obtain ⟨l, hl⟩ := replayPending_state env k
              s.pendingNeedKeyData { s with keySystem := KSField.sys k }
            simp [hl]
      · rw [if_neg h]; exact ⟨rfl, fun hi => hi⟩
  | accessCompleteSelected granted c =>
      simp only [step]
      split
      next k hk =>
        by_cases hc : c.ks = k
        · rw [if_pos hc]
          cases granted with
          | true =>
              obtain ⟨l, hl⟩ := createKeySession_state env s c.initData c.cdmData
              simp [hl]
          | false => exact ⟨rfl, fun hi => hi⟩
        · rw [if_neg hc]; exact ⟨rfl, fun hi => hi⟩
      next => exact ⟨rfl, fun hi => hi⟩
  | createKS i c =>
      obtain ⟨l, hl⟩ := createKeySession_state env s i c
      simp only [step]
      rw [hl]
      exact ⟨rfl, fun hi => hi⟩
  | setSessType t =>
      simp only [step]
      by_cases h : s.keysystem.isSome = true
      · rw [if_pos h]; exact ⟨rfl, fun hi => hi⟩
      · rw [if_neg h]; exact ⟨rfl, fun hi => hi⟩
  | setProtData d => exact ⟨rfl, fun hi => hi⟩
  | teardownOp => exact ⟨rfl, fun hi => hi⟩

/-- Folding any operations preserves an unassigned `keysystem` field. -/
theorem foldl_keysystem (env : Env) :
    ∀ (ops : List Op) (s : CtrlState), s.keysystem = none →
      (ops.foldl (fun s op => (step env s op).1) s).keysystem = none := by
  intro ops
  induction ops with
  | nil => exact fun s hs => hs
  | cons op rest ih =>
      intro s hs
      simp only [List.foldl_cons]
      exact ih _ (((step_frame env s op).1).trans hs)

/-- Folding any operations preserves a set `initialized` flag. -/
theorem foldl_initialized (env : Env) :
    ∀ (ops : List Op) (s : CtrlState), s.initialized = true →
      (ops.foldl (fun s op => (step env s op).1) s).initialized = true := by
  intro ops
  induction ops with
  | nil => exact fun s hs => hs
  | cons op rest ih =>
      intro s hs
      simp only [List.foldl_cons]
      exact ih _ ((step_frame env s op).2 hs)

/-- C8: on every reachable controller state, the lower-case `keysystem`
field that guards `setSessionType` is still unassigned, so calling
`setSessionType` — with any argument — leaves the entire controller state
unchanged and performs no observable action: the assignment body is
unreachable. -/
theorem c8_setSessionType_noop (env : Env) (ops : List Op) (t : String) :
    (runState env ops).keysystem = none ∧
    step env (runState env ops) (.setSessType t) = (runState env ops, []) := by
  have h : (runState env ops).keysystem = none :=
    foldl_keysystem env ops initialState rfl
  refine ⟨h, ?_⟩
  simp only [step, h]
  rfl

/-- C9: once `init` has run, every later `init` call — with any
content-protection descriptor and any codec arguments, and after any
intervening operations including `teardown` — leaves the entire controller
state unchanged and triggers nothing, because the `initialized` flag is
set by the first call and never cleared. -/
theorem c9_init_only_first (env : Env) (sks0 : Option Batch)
    (a0 v0 : Option String) (rest : List Op) (sks : Option Batch)
    (a v : Option String) :
    step env (runState env (Op.opInit sks0 a0 v0 :: rest)) (.opInit sks a v) =
      (runState env (Op.opInit sks0 a0 v0 :: rest), []) := by
  have h0 : ((step env initialState (.opInit sks0 a0 v0)).1).initialized
      = true := rfl
  have h : (runState env (Op.opInit sks0 a0 v0 :: rest)).initialized = true := by
    unfold runState
    simp only [List.foldl_cons]
    exact foldl_initialized env rest _ h0
  simp only [step, h]
  rfl

/-- C10: a need-key event whose `initDataType` is not `"cenc"`, and a
need-key event whose initialization data yields zero supported candidate
systems, change nothing and produce no observable action: no selection, no
enqueued batch, no public event, no fault. -/
theorem c10_needkey_ignored (env : Env) (s : CtrlState) (idt : String)
    (sks : Batch) (h : idt ≠ "cenc" ∨ sks = []) :
    step env s (.needKey idt sks) = (s, []) := by
  simp only [step]
  rcases h with h | h
  · rw [if_pos h]
  · subst h
    by_cases hc : idt ≠ "cenc"
    · rw [if_pos hc]
    · rw [if_neg hc]
      simp

/-- A candidate for system 1 with one byte of initialization data. -/
def candA : Candidate := { ks := 1, initData := [7], cdmData := none }

/-- A concrete collaborator environment: the derived initialization data
is the raw data itself and gateway creation never throws. -/
def envW : Env :=
  { psshForKS := fun _ i => some i, createThrows := fun _ => false }

/-- C10 witness: a `"webm"` need-key event carrying a non-empty candidate
batch is ignored on the fresh controller. -/
theorem c10_witness :
    ("webm" ≠ "cenc" ∨ ([candA] : Batch) = []) ∧
    step envW initialState (.needKey "webm" [candA]) = (initialState, []) :=
  ⟨Or.inl (by decide),
   c10_needkey_ignored envW initialState "webm" [candA] (Or.inl (by decide))⟩

/-- Number of gateway session-create calls in an effect trace. -/
def countSessionCreates (l : List CEffect) : Nat :=
  l.countP (fun e => match e with | .createSession _ _ => true | _ => false)

/-- State after one need-key trigger for system 1 on a fresh controller:
selection is in progress and the triggering batch is queued. -/
def c3s1 : CtrlState := (step envW initialState (.needKey "cenc" [candA])).1

/-- The failure resolution of that selection round. -/
def c3fail : CtrlState × List CEffect :=
  step envW c3s1 (.selectedEvent none false)

/-- C3 counterexample: a batch enqueued while selection is in progress is
not replayed when the selection resolves on the failure path — the
failure resolution issues no session-create call at all and leaves the
batch sitting in the queue, so with no further successful round the batch
is never replayed, contradicting replay on the failure path. -/
theorem c3_counterexample :
    c3s1.keySystem = KSField.selecting ∧
    c3s1.pendingNeedKeyData = [[candA]] ∧
    countSessionCreates c3fail.2 = 0 ∧
    c3fail.1.pendingNeedKeyData = [[candA]] ∧
    c3fail.1.keySystem = KSField.undef := by
  refine ⟨rfl, rfl, rfl, rfl, rfl⟩

/-- One batch's replay is the session creation of its first matching
candidate (and nothing when no candidate matches). -/
theorem replayBatch_eq_find (env : Env) (k : Nat) :
    ∀ (b : List Candidate) (s : CtrlState),
      replayBatch env k s b =
        match b.find? (fun c => c.ks == k) with
        | some c => createKeySession env s c.initData c.cdmData
        | none => (s, []) := by
  intro b
  induction b with
  | nil => intro s; rfl
  | cons c cs ih =>
      intro s
      unfold replayBatch
      by_cases h : c.ks = k
      · simp [List.find?, h]
      · have hb : (c.ks == k) = false := by simp [h]
        simp only [List.find?, hb]
        rw [if_neg h]
        exact ih s

/-- The first candidate of every queued batch matching the selected
system, batches with no match skipped. -/
def firstMatches (k : Nat) (q : List Batch) : List Candidate :=
  q.filterMap (fun b => b.find? (fun c => c.ks == k))

/-- Sequential session creation for a list of candidates, threading the
session registry. -/
def createRuns (env : Env) (s : CtrlState) :
    List Candidate → CtrlState × List CEffect
  | [] => (s, [])
  | c :: cs =>
      let r1 := createKeySession env s c.initData c.cdmData
      let r2 := createRuns env r1.1 cs
      (r2.1, r1.2 ++ r2.2)

/-- The replay of the queued batches is exactly one `createKeySession`
run per batch that has a matching candidate — its first match — in queue
order. -/
theorem replayPending_eq_createRuns (env : Env) (k : Nat) :
    ∀ (q : List Batch) (s : CtrlState),
      replayPending env k s q = createRuns env s (firstMatches k q) := by
  intro q
  induction q with
  | nil => intro s; rfl
  | cons b rest ih =>
      intro s
      simp only [replayPending]
      rw [replayBatch_eq_find]
      cases hf : b.find? (fun c => c.ks == k) with
      | none =>
          simp only [firstMatches, List.filterMap_cons, hf]
          rw [ih s]
          rfl
      | some c =>
          simp only [firstMatches, List.filterMap_cons, hf]
          simp only [createRuns]
          rw [ih]
          rfl

/-- `createRuns` changes at most the session registry. -/
theorem createRuns_state (env : Env) :
    ∀ (cs : List Candidate) (s : CtrlState),
      ∃ l, (createRuns env s cs).1 = { s with sessionsInitData := l } := by
  intro cs
  induction cs with
  | nil => exact fun s => ⟨s.sessionsInitData, rfl⟩
  | cons c rest ih =>
      intro s
      obtain ⟨l1, h1⟩ := createKeySession_state env s c.initData c.cdmData
      obtain ⟨l2, h2⟩ := ih (createKeySession env s c.initData c.cdmData).1
      refine ⟨l2, ?_⟩
      simp only [createRuns]
      rw [h2, h1]

/-- A controller state whose key-system selection is in progress, with
every other field arbitrary. -/
def selectingState (ks0 : Option Nat) (q : List Batch) (a v : Option String)
    (pds : Option Nat) (ini : Bool) (sess : List (List Nat))
    (sty : Option String) : CtrlState :=
  { keySystem := .selecting, keysystem := ks0, pendingNeedKeyData := q,
    audioCodec := a, videoCodec := v, protDataSet := pds,
    initialized := ini, sessionsInitData := sess, ksSessionType := sty }

/-- C3 (amended): when a selection in progress resolves successfully,
every batch queued at that moment is replayed exactly once, in order —
the replay runs `createKeySession` for the first candidate of each batch
matching the selected system, a batch with no match being silently
skipped; when it resolves on the failure path, nothing is replayed and no
session-create call is issued.  On both paths the queue itself is left
intact (batches are never dropped; they are replayed again only if a
whole new selection round is later resolved successfully). -/
theorem c3_replay_on_resolution (env : Env) (ks0 : Option Nat)
    (q : List Batch) (a v : Option String) (pds : Option Nat) (ini : Bool)
    (sess : List (List Nat)) (sty : Option String) (k : Nat) (fm : Bool) :
    step env (selectingState ks0 q a v pds ini sess sty)
        (.selectedEvent (some k) fm) =
      (let r := createRuns env
          { selectingState ks0 q a v pds ini sess sty with
            keySystem := KSField.sys k } (firstMatches k q)
       (r.1, CEffect.publicSelected true :: r.2)) ∧
    (step env (selectingState ks0 q a v pds ini sess sty)
        (.selectedEvent (some k) fm)).1.pendingNeedKeyData = q ∧
    countSessionCreates ((step env (selectingState ks0 q a v pds ini sess sty)
        (.selectedEvent none fm)).2) = 0 ∧
    (step env (selectingState ks0 q a v pds ini sess sty)
        (.selectedEvent none fm)).1.pendingNeedKeyData = q ∧
    (step env (selectingState ks0 q a v pds ini sess sty)
        (.selectedEvent none fm)).1.keySystem = KSField.undef := by
  have hsel : (selectingState ks0 q a v pds ini sess sty).keySystem =
      KSField.selecting := rfl
  have hstep : step env (selectingState ks0 q a v pds ini sess sty)
      (.selectedEvent (some k) fm) =
      (let r := createRuns env
          { selectingState ks0 q a v pds ini sess sty with
            keySystem := KSField.sys k } (firstMatches k q)
       (r.1, CEffect.publicSelected true :: r.2)) := by
    simp only [step]
    rw [replayPending_eq_createRuns, if_pos hsel]
    rfl
  have hfail : step env (selectingState ks0 q a v pds ini sess sty)
      (.selectedEvent none fm) =
      ({ selectingState ks0 q a v pds ini sess sty with
         keySystem := KSField.undef },
       (if fm then [] else [CEffect.publicSelected false]) ++
         [CEffect.faultAccessDenied]) := by
    simp only [step]
    rw [if_pos hsel]
  refine ⟨hstep, ?_, ?_, ?_, ?_⟩
  · rw [hstep]
    obtain ⟨l, hl⟩ := createRuns_state env (firstMatches k q)
      { selectingState ks0 q a v pds ini sess sty with
        keySystem := KSField.sys k }
    simp only [hl]
    rfl
  · rw [hfail]
    cases fm <;> rfl
  · rw [hfail]
    rfl
  · rw [hfail]

/-- C4: two `createKeySession` calls whose derived (system-specific)
initialization data are byte-equal issue at most one gateway
session-create call; whenever the first call issued it, the second call
finds the matching payload among the initialization data of the open
sessions and is a complete no-op (no state change, no action). -/
theorem c4_create_idempotent (env : Env) (s : CtrlState)
    (i1 i2 : List Nat) (c1 c2 : Option (List Nat)) (d : List Nat)
    (h1 : env.psshForKS s.keySystem i1 = some d)
    (h2 : env.psshForKS s.keySystem i2 = some d) :
    countSessionCreates (createKeySession env s i1 c1).2 +
      countSessionCreates
        (createKeySession env (createKeySession env s i1 c1).1 i2 c2).2 ≤ 1 ∧
    (countSessionCreates (createKeySession env s i1 c1).2 = 1 →
      createKeySession env (createKeySession env s i1 c1).1 i2 c2 =
        ((createKeySession env s i1 c1).1, [])) := by
  by_cases hd : d ∈ s.sessionsInitData
  · have e1 : createKeySession env s i1 c1 = (s, []) := by
      unfold createKeySession
      rw [h1]
      simp [hd]
    have e2 : createKeySession env s i2 c2 = (s, []) := by
      unfold createKeySession
      rw [h2]
      simp [hd]
    rw [e1]
    have e2' : createKeySession env ((s, ([] : List CEffect))).1 i2 c2 =
        (s, []) := e2
    rw [e2']
    exact ⟨show (0 : Nat) + 0 ≤ 1 by decide, fun _ => rfl⟩
  · by_cases ht : env.createThrows d = true
    · have e1 : createKeySession env s i1 c1 =
          (s, [CEffect.notifySessionCreatedError true]) := by
        unfold createKeySession
        rw [h1]
        simp [hd, ht]
      have e2 : createKeySession env s i2 c2 =
          (s, [CEffect.notifySessionCreatedError true]) := by
        unfold createKeySession
        rw [h2]
        simp [hd, ht]
      rw [e1]
      have e2' : createKeySession env
          ((s, [CEffect.notifySessionCreatedError true])).1 i2 c2 =
          (s, [CEffect.notifySessionCreatedError true]) := e2
      rw [e2']
      exact ⟨show (0 : Nat) + 0 ≤ 1 by decide,
             fun hc => absurd (show (0 : Nat) = 1 from hc) (by decide)⟩
    · have e1 : createKeySession env s i1 c1 =
          ({ s with sessionsInitData := d :: s.sessionsInitData },
           [CEffect.createSession d c1]) := by
        unfold createKeySession
        rw [h1]
        simp [hd, ht]
      have h2' : env.psshForKS
          ({ s with sessionsInitData := d :: s.sessionsInitData } :
            CtrlState).keySystem i2 = some d := h2
      have e2 : createKeySession env
          { s with sessionsInitData := d :: s.sessionsInitData } i2 c2 =
          ({ s with sessionsInitData := d :: s.sessionsInitData }, []) := by
        unfold createKeySession
        rw [h2']
        simp
      rw [e1]
      have e2' : createKeySession env
          (({ s with sessionsInitData := d :: s.sessionsInitData },
            [CEffect.createSession d c1])).1 i2 c2 =
          ({ s with sessionsInitData := d :: s.sessionsInitData }, []) := e2
      rw [e2']
      refine ⟨?_, fun _ => rfl⟩
      exact show (1 : Nat) + 0 ≤ 1 by decide

/-- C4 witness: on the fresh controller with `envW` (where the derived
data is the raw data), two calls with the byte-equal payload `[3]` issue
at most one gateway create and the second is a no-op. -/
theorem c4_witness :
    envW.psshForKS initialState.keySystem [3] = some [3] ∧
    (countSessionCreates (createKeySession envW initialState [3] none).2 +
       countSessionCreates (createKeySession envW
         (createKeySession envW initialState [3] none).1 [3] none).2 ≤ 1 ∧
     (countSessionCreates (createKeySession envW initialState [3] none).2
        = 1 →
       createKeySession envW (createKeySession envW initialState [3] none).1
           [3] none =
         ((createKeySession envW initialState [3] none).1, []))) :=
  ⟨rfl, c4_create_idempotent envW initialState [3] [3] none none [3] rfl rfl⟩

end ProtectionController
